import Mathlib

/-!
Verification of the mosaic_traj trajectory-file reader.

This file gives a shallow embedding, in Lean 4, of the core logic of the
mosaic_traj repository: the header metadata parser `process_metadata`, the
frequency inferencer `get_freq_alias`, the trajectory block decoder and index
builder inside `read_traj`, the multi-file aggregator `read_data`
(all from mosaic_traj/read_traj.py), and the thermodynamic helper `equ_pot`
(from mosaic_traj/thermo.py).  Python exceptions are modelled by an explicit
error type carried in `Except`; Python numbers extracted by the regexes are
natural numbers (the `\d+` and `\d{10}` patterns match unsigned digit runs);
the exact real formula of `equ_pot` is modelled over `Real`.
The semantics of the pandas and numpy library calls the source relies on
(`read_csv` chunked iteration, `date_range`, `np.full` broadcasting,
`np.repeat`, `pd.concat` keyed concatenation, `datetime.strptime` and
`fromisoformat`) are modelled from their documented behaviour at exactly the
call shapes used in the source, as noted in the doc comment of each model.
-/

/-! ## Character and string helpers (Python `str.lower`, substring test, regexes) -/

/-- Characters matched by the regex class `\s` that can occur in a header line
(space, tab, carriage return, newline, vertical tab, form feed). -/
def pyIsSpace (c : Char) : Bool :=
  c = ' ' || c = '\t' || c = '\r' || c = '\n' || c = '\x0b' || c = '\x0c'

/-- Models Python `str.lower()` on the ASCII text of the trajectory files. -/
def pyLower (s : String) : String :=
  String.mk (s.toList.map Char.toLower)

/-- Does `pat` occur at the start of `l`?  (helper for the substring test). -/
def startsWithList : List Char → List Char → Bool
  | [], _ => true
  | _ :: _, [] => false
  | p :: ps, c :: cs => p == c && startsWithList ps cs

/-- Does `pat` occur somewhere in `l`?  Models the Python `pat in line` test. -/
def containsSub (pat : List Char) : List Char → Bool
  | [] => startsWithList pat []
  | c :: cs => startsWithList pat (c :: cs) || containsSub pat cs

/-- Models the Python substring test `pat in s` used to dispatch header lines. -/
def containsB (s pat : String) : Bool :=
  containsSub pat.toList s.toList

/-- Numeric value of a decimal digit character. -/
def digitVal (c : Char) : Nat := c.toNat - 48

/-- Accumulator pass extracting the maximal runs of decimal digits from a
character list, each converted to a number: models `re.findall('\d+', line)`
followed by `int` conversion of every match. -/
def digitNumsGo : Option Nat → List Char → List Nat
  | none, [] => []
  | some n, [] => [n]
  | cur, c :: cs =>
    if c.isDigit then
      digitNumsGo (some (cur.getD 0 * 10 + digitVal c)) cs
    else
      match cur with
      | none => digitNumsGo none cs
      | some n => n :: digitNumsGo none cs

/-- All runs of decimal digits in a line, as numbers, in order of occurrence:
models `[int(x) for x in re.findall('\d+', line)]`. -/
def digitNums (s : String) : List Nat :=
  digitNumsGo none s.toList

/-- Leftmost run of (at least) ten consecutive decimal digits, truncated to ten
characters: models `re.search('\d{10}', line)`. -/
def scan10 : List Char → Option String
  | [] => none
  | c :: cs =>
    let w := (c :: cs).take 10
    if w.length = 10 && w.all Char.isDigit then some (String.mk w)
    else scan10 cs

/-! ## Error model for the Python exceptions the source can raise -/

/-- Python exceptions raised by the modelled code paths.  Each constructor
records one concrete raise site or built-in failure mode:
`valueErrorDataInterval` is the explicit `ValueError` for a malformed data
interval line; `keyError` a missing dict key (including a missing `ATTR`
code); `typeError` a built-in `TypeError` (`len()` of an int, iterating an
int, comparing a list with an int, `//` on a list, `strptime(None)`);
`indexError` the `m[0]` of `get_numeric` on a line with no digits;
`stopIteration` an explicit `next(f)` past the end of input;
`zeroDivisionError` the `//` with zero divisor; `strptimeError` and
`isoFormatError` the `ValueError` of `datetime.strptime` /
`datetime.fromisoformat` on an invalid date; `emptyDataError` the pandas
`EmptyDataError` when `read_csv` finds no rows; `broadcastError` the numpy
`ValueError` when `np.full` cannot broadcast its fill value;
`noObjectsError` and `concatNoneError` the `pd.concat` errors for an empty
object list and for a `None` entry; `notADirError` the explicit `ValueError`
of `read_data` for a non-directory path. -/
inductive Err where
  | valueErrorDataInterval
  | keyError
  | typeError
  | indexError
  | stopIteration
  | zeroDivisionError
  | strptimeError
  | isoFormatError
  | emptyDataError
  | broadcastError
  | noObjectsError
  | concatNoneError
  | notADirError
  deriving Repr, DecidableEq

/-- Result of `get_numeric`: a bare number when the line holds exactly one
digit run, a list when it holds several (the Python function returns either an
`int` or a `list`). -/
inductive NumVal where
  | scalar (n : Nat)
  | list (ns : List Nat)
  deriving Repr, DecidableEq

/-- Models the inner function `get_numeric` of `process_metadata` (with its
default `type='int'`): all digit runs of the line as ints, returned as a list
when there are several, as a bare int when there is one, and raising
`IndexError` (`m[0]` on an empty list) when there is none. -/
def get_numeric (line : String) : Except Err NumVal :=
  let m := digitNums line
  if m.length > 1 then .ok (.list m)
  else
    match m with
    | [] => .error .indexError
    | x :: _ => .ok (.scalar x)

/-- Models the inner function `get_date` of `process_metadata`: the leftmost
ten-digit run of the line, or `none`. -/
def get_date (line : String) : Option String :=
  scan10 line.toList

/-- Text after the last colon of the line with the leading `\s*` removed, or
the whole line when it has no colon: this is the last element of
`re.split(':\s*', line)`. -/
def afterLastColon (cs : List Char) : List Char :=
  if cs.contains ':' then
    ((cs.reverse.takeWhile (fun c => !(c = ':'))).reverse).dropWhile pyIsSpace
  else cs

/-- Models the inner function `get_boolean` of `process_metadata`: split the
(already lower-cased) line on `:\s*` and compare the last token with `"t"`. -/
def get_boolean (line : String) : Bool :=
  afterLastColon line.toList = ['t']

/-! ## Header metadata state -/

/-- The metadata dictionary built by `process_metadata`, one field per dict
key the source can set; `none` models an absent key.  The date fields hold an
inner `Option` because `get_date` can itself return `None`, which the source
stores in the dict.  `attribute_names` is only filled in later by
`read_traj`. -/
structure MetaState where
  trajectory_base_time : Option (Option String) := none
  data_base_time : Option (Option String) := none
  data_interval_hours : Option Nat := none
  data_interval_timesteps : Option Nat := none
  total_number_of_trajectories : Option NumVal := none
  number_of_attributes : Option NumVal := none
  attribute_types : Option NumVal := none
  number_of_clusters : Option NumVal := none
  cluster_pointers : Option (List Nat) := none
  traj_3d : Option Bool := none
  forecast_data : Option Bool := none
  forward_trajectory : Option Bool := none
  attribute_names : Option (List String) := none
  deriving Repr, DecidableEq

/-- The empty metadata dictionary at the start of `process_metadata`. -/
def initMeta : MetaState := {}

/-- Models the inner `while` loop of the `cluster pointers` branch: keep
consuming lines via `next(f)` and accumulating their numbers until at least
`n` have been collected, returning the pointers and how many lines were
consumed.  Raises `StopIteration` when the input ends first, and propagates
the `IndexError` of `get_numeric` on a line with no digits. -/
def clusterLoopGo (n : Nat) : List Nat → Nat → List String → Except Err (List Nat × Nat)
  | acc, consumed, rest =>
    if acc.length < n then
      match rest with
      | [] => .error .stopIteration
      | l :: ls =>
        match get_numeric l with
        | .error e => .error e
        | .ok (.scalar x) => clusterLoopGo n (acc ++ [x]) (consumed + 1) ls
        | .ok (.list xs) => clusterLoopGo n (acc ++ xs) (consumed + 1) ls
    else
      .ok (acc, consumed)

/-- One pass of the `elif` chain of `process_metadata` on an already
lower-cased line `l` (the `trajectory number` break is handled by the caller),
returning the updated dictionary and how many extra lines were consumed from
`rest` by `next(f)` calls. -/
def pmStepBody (s : MetaState) (l : String) (rest : List String) :
    Except Err (MetaState × Nat) :=
  if containsB l "trajectory base time" then
    .ok ({ s with trajectory_base_time := some (get_date l) }, 0)
  else if containsB l "data base time" then
    .ok ({ s with data_base_time := some (get_date l) }, 0)
  else if containsB l "data interval" then
    match get_numeric l with
    | .error e => .error e
    | .ok (.scalar _) => .error .typeError
    | .ok (.list vals) =>
      match vals with
      | [a, b] =>
        .ok ({ s with data_interval_hours := some a,
                      data_interval_timesteps := some b }, 0)
      | _ => .error .valueErrorDataInterval
  else if containsB l "total number of trajectories" then
    match get_numeric l with
    | .error e => .error e
    | .ok v => .ok ({ s with total_number_of_trajectories := some v }, 0)
  else if containsB l "number of attributes" then
    match get_numeric l with
    | .error e => .error e
    | .ok v => .ok ({ s with number_of_attributes := some v }, 0)
  else if containsB l "attribute types" then
    match rest with
    | [] => .error .stopIteration
    | nxt :: _ =>
      match get_numeric nxt with
      | .error e => .error e
      | .ok v => .ok ({ s with attribute_types := some v }, 1)
  else if containsB l "number of clusters" then
    match get_numeric l with
    | .error e => .error e
    | .ok v => .ok ({ s with number_of_clusters := some v }, 0)
  else if containsB l "cluster pointers" then
    match s.number_of_clusters with
    | none => .error .keyError
    | some (.list _) => .error .typeError
    | some (.scalar n) =>
      match clusterLoopGo n [] 0 rest with
      | .error e => .error e
      | .ok (clusters, consumed) =>
        .ok ({ s with cluster_pointers := some clusters }, consumed)
  else if containsB l "3d trajectory" then
    .ok ({ s with traj_3d := some (get_boolean l) }, 0)
  else if containsB l "forecast data" then
    .ok ({ s with forecast_data := some (get_boolean l) }, 0)
  else if containsB l "forward trajectory" then
    .ok ({ s with forward_trajectory := some (get_boolean l) }, 0)
  else
    .ok (s, 0)

/-- The main line loop of `process_metadata`.  `extras` is the running `count`
of extra lines consumed by `next(f)`, `i` the `enumerate` counter of the
current line.  On a line containing "trajectory number" the loop breaks and
returns `extras + i` (the source's `count = count + i`); at end of input it
returns `extras` alone.  `fuel` bounds the recursion; every iteration consumes
at least one line, so `fuel = lines.length` at the top call always suffices
and the `0, _ :: _` fallback is unreachable from `process_metadata`. -/
def pmLoop : Nat → MetaState → Nat → Nat → List String → Except Err (MetaState × Nat)
  | _, s, extras, _, [] => .ok (s, extras)
  | 0, s, extras, _, _ :: _ => .ok (s, extras)
  | fuel + 1, s, extras, i, line :: rest =>
    let l := pyLower line
    if containsB l "trajectory number" then
      .ok (s, extras + i)
    else
      match pmStepBody s l rest with
      | .error e => .error e
      | .ok (s2, consumed) =>
        pmLoop fuel s2 (extras + consumed) (i + 1) (rest.drop consumed)

/-- Models `process_metadata` of read_traj.py on the file's lines (each
without its trailing newline): returns the metadata dictionary and the final
`count`. -/
def process_metadata (lines : List String) : Except Err (MetaState × Nat) :=
  pmLoop lines.length initMeta 0 0 lines

/-- Specification-side measurement of the same traversal as `pmLoop`: the
0-based physical position, counting every consumed line, of the line at which
the loop of `process_metadata` breaks (the first enumerated line containing
"trajectory number"), or `none` when the loop errors or exhausts the input.
It follows the branch logic of `pmStepBody` exactly and differs from `pmLoop`
only in what it counts. -/
def pmBreakPos : Nat → MetaState → List String → Option Nat
  | _, _, [] => none
  | 0, _, _ :: _ => none
  | fuel + 1, s, line :: rest =>
    let l := pyLower line
    if containsB l "trajectory number" then
      some 0
    else
      match pmStepBody s l rest with
      | .error _ => none
      | .ok (s2, consumed) =>
        (pmBreakPos fuel s2 (rest.drop consumed)).map (fun j => j + consumed + 1)

/-! ## Frequency inferencer -/

/-- Models the Python float modulo `a % b` on the exact rational values
arising in `get_freq_alias` (all exactly representable). -/
def pyMod (a b : ℚ) : ℚ := a - b * ((Int.floor (a / b) : ℤ) : ℚ)

/-- Models the Python f-string rendering of the float values interpolated in
`get_freq_alias`.  Every value reaching the hours and minutes branches is
integral, where Python renders e.g. `1.0`; the seconds branch can carry a
non-integral float, rendered here as an exact fraction (that branch's string,
like all the others, is dead code: the function never returns it). -/
def pyFloatRepr (q : ℚ) : String :=
  if q.den = 1 then toString q.num ++ ".0"
  else toString q.num ++ "/" ++ toString q.den

/-- Models `get_freq_alias` of read_traj.py.  The source computes the local
variable `freq` exactly as the `let _freq` below but has no `return`
statement on any path, so the Python function always returns `None`. -/
def get_freq_alias (n : Nat) : Option String :=
  let _freq : String :=
    if (n : ℚ) > 1 then
      let seconds : ℚ := 86400 / (n : ℚ)
      if pyMod seconds 60 = 0 then
        let minutes : ℚ := seconds / 60
        if pyMod minutes 60 = 0 then
          let hours : ℚ := minutes / 60
          pyFloatRepr hours ++ "H"
        else
          pyFloatRepr minutes ++ "min"
      else
        pyFloatRepr seconds ++ "S"
    else
      "D"
  none

/-- The frequency inferencer returns `None` on every input: its body computes
a local descriptor string but never returns it. -/
theorem get_freq_alias_eq_none (n : Nat) : get_freq_alias n = none := rfl

/-! ## Calendar model (datetime / pandas date arithmetic) -/

/-- Proleptic Gregorian leap-year test, as in Python's `datetime`. -/
def isLeapYear (y : Nat) : Bool :=
  (y % 4 == 0 && y % 100 != 0) || y % 400 == 0

/-- Number of days of month `m` in year `y`, as in Python's `datetime`. -/
def daysInMonth (y m : Nat) : Nat :=
  if m = 2 then (if isLeapYear y then 29 else 28)
  else if m = 4 ∨ m = 6 ∨ m = 9 ∨ m = 11 then 30
  else 31

/-- Serial day number of the civil date `(y, m, d)` (days since 0000-03-01 of
the proleptic Gregorian calendar, the standard civil-calendar conversion):
models the day arithmetic of `datetime` and of daily-frequency
`pandas.date_range` sequences. -/
def daysFromCivil (y m d : Nat) : Nat :=
  let yp := if m ≤ 2 then y - 1 else y
  let era := yp / 400
  let yoe := yp % 400
  let mp := (m + 9) % 12
  let doy := (153 * mp + 2) / 5 + (d - 1)
  let doe := yoe * 365 + yoe / 4 - yoe / 100 + doy
  era * 146097 + doe

/-- Civil date `(y, m, d)` of a serial day number: inverse of
`daysFromCivil`, used to model `strftime` date formatting. -/
def civilFromDays (z : Nat) : Nat × Nat × Nat :=
  let era := z / 146097
  let doe := z % 146097
  let yoe := (doe - doe / 1460 + doe / 36524 - doe / 146096) / 365
  let yp := yoe + era * 400
  let doy := doe - (365 * yoe + yoe / 4 - yoe / 100)
  let mp := (5 * doy + 2) / 153
  let d := doy - (153 * mp + 2) / 5 + 1
  let m := if mp < 10 then mp + 3 else mp - 9
  (if m ≤ 2 then yp + 1 else yp, m, d)

/-- Value of a list of digit characters read as a decimal number. -/
def digitsVal (cs : List Char) : Nat :=
  cs.foldl (fun acc c => acc * 10 + digitVal c) 0

/-- Models `datetime.strptime(s, '%Y%m%d%H')`: ten digits split as
year/month/day/hour, with the range validation `datetime` performs
(`ValueError`, modelled as `strptimeError`, otherwise). -/
def strptimeYmdH (s : String) : Except Err (Nat × Nat × Nat × Nat) :=
  let cs := s.toList
  if cs.length = 10 && cs.all Char.isDigit then
    let y := digitsVal (cs.take 4)
    let mo := digitsVal ((cs.drop 4).take 2)
    let d := digitsVal ((cs.drop 6).take 2)
    let h := digitsVal ((cs.drop 8).take 2)
    if 1 ≤ y && 1 ≤ mo && mo ≤ 12 && 1 ≤ d && d ≤ daysInMonth y mo && h ≤ 23 then
      .ok (y, mo, d, h)
    else
      .error .strptimeError
  else
    .error .strptimeError

/-- Models `datetime.fromisoformat` on the `YYYY-MM-DD` date strings
`read_data` is given, with `datetime`'s range validation; `none` models the
`ValueError` on malformed input. -/
def parseIso (s : String) : Option (Nat × Nat × Nat) :=
  match s.toList with
  | [y1, y2, y3, y4, s1, m1, m2, s2, d1, d2] =>
    if s1 = '-' && s2 = '-' &&
        [y1, y2, y3, y4, m1, m2, d1, d2].all Char.isDigit then
      let y := digitsVal [y1, y2, y3, y4]
      let mo := digitsVal [m1, m2]
      let d := digitsVal [d1, d2]
      if 1 ≤ y && 1 ≤ mo && mo ≤ 12 && 1 ≤ d && d ≤ daysInMonth y mo then
        some (y, mo, d)
      else none
    else none
  | _ => none

/-! ## Attribute code table -/

/-- The module-level `ATTR` table of read_traj.py: attribute code to
human-readable name. -/
def ATTR : List (Nat × String) :=
  [(1, "temperature (K)"),
   (3, "potential vorticity (PVU)"),
   (4, "specific humidity (kg/kg)"),
   (10, "height (m)"),
   (159, "boundary layer height (m)")]

/-- Models the dict lookup `ATTR[x]`: `KeyError` for a code outside the
table. -/
def attrName (x : Nat) : Except Err String :=
  match ATTR.lookup x with
  | some s => .ok s
  | none => .error .keyError

/-- Models the comprehension `[ATTR[x] for x in metadata['attribute types']]`
over a list of codes, propagating the first `KeyError`. -/
def attrNames : List Nat → Except Err (List String)
  | [] => .ok []
  | x :: xs =>
    match attrName x with
    | .error e => .error e
    | .ok nm =>
      match attrNames xs with
      | .error e => .error e
      | .ok r => .ok (nm :: r)

/-! ## Trajectory block decoding (pandas chunked reader) -/

/-- Is the line blank for the purposes of `pandas.read_csv` with
`delim_whitespace=True` and default `skip_blank_lines=True`? -/
def isBlankLine (s : String) : Bool :=
  s.toList.all pyIsSpace

/-- Models the `while i < ntraj` chunk loop of `read_traj` over the parsed
data rows that follow the header: `reader.get_chunk(n)` raises
`StopIteration` when no rows remain and otherwise returns up to `n` rows, so
each iteration takes up to `nts + 1` rows as one trajectory block (a short
final block is stored like any other), then discards up to 2 separator rows,
breaking out of the loop on either `StopIteration`.  `rem` is the number of
iterations the `i < ntraj` condition still allows.  Returns the list of
blocks read, i.e. the non-`None` prefix of the source's `traj_list`. -/
def chunkLoop (nts : Nat) : Nat → List String → List (List String)
  | 0, _ => []
  | rem + 1, rows =>
    if rows.isEmpty then []
    else
      let chunk := rows.take (nts + 1)
      let rest := rows.drop (nts + 1)
      if rest.isEmpty then [chunk]
      else chunk :: chunkLoop nts rem (rest.drop 2)

/-- Specification-side count of the trajectory blocks available in the input
before end of file: the greedy segmentation into blocks of up to `nts + 1`
rows separated by up to 2 separator rows yields one block per `nts + 3` rows,
with any non-empty remainder forming one final (possibly short) block. -/
def blocksAvailable (nts : Nat) : List String → Nat
  | [] => 0
  | _ :: rest => 1 + blocksAvailable nts (rest.drop (nts + 2))
termination_by rows => rows.length
decreasing_by
  simp only [List.length_drop, List.length_cons]
  omega

/-! ## Index building (numpy / pandas calls of read_traj) -/

/-- Models `np.full(n, fill)` for a one-dimensional array fill value: numpy
broadcasts a shape `(m,)` fill into shape `(n,)` only when `m = n` or
`m = 1`, and raises a broadcast `ValueError` otherwise. -/
def npFull (n : Nat) (fill : List Nat) : Except Err (List Nat) :=
  if fill.length = n then .ok fill
  else
    match fill with
    | [x] => .ok (List.replicate n x)
    | _ => .error .broadcastError

/-- Models `pd.date_range(init_ts, periods=periods, freq=freq)` at the call
shape of `read_traj`, over serial day numbers: `freq` here is always the
`None` returned by `get_freq_alias` (theorem `get_freq_alias_eq_none`), and
pandas, given `start` and `periods` with `end=None` and `freq=None`,
substitutes the default daily frequency, so the sequence steps one day at a
time from the start date. -/
def pd_date_range (startDay periods : Nat) (freq : Option String) : List Nat :=
  let _ := freq
  (List.range periods).map (fun k => startDay + k)

/-- Models `read_traj` of read_traj.py on the file's lines.  The result table
is the keyed concatenation `pd.concat(traj_list, keys=keys, ...)`: the list
of (cluster id, release day number) keys zipped with the trajectory blocks.
`pd.concat` raises when `traj_list` is empty (`ntraj = 0`) or still contains
a `None` entry (fewer blocks were decoded than `ntraj`). -/
def read_traj (lines : List String) :
    Except Err (List ((Nat × Nat) × List String) × MetaState) :=
  match process_metadata lines with
  | .error e => .error e
  | .ok (metadata, endPos) =>
    match metadata.trajectory_base_time with
    | none => .error .keyError
    | some none => .error .typeError
    | some (some ds) =>
      match strptimeYmdH ds with
      | .error e => .error e
      | .ok (y, mo, d, _h) =>
        match metadata.total_number_of_trajectories with
        | none => .error .keyError
        | some ntrajV =>
          match metadata.number_of_clusters with
          | none => .error .keyError
          | some nclustV =>
            match metadata.cluster_pointers with
            | none => .error .keyError
            | some clust =>
              match ntrajV, nclustV with
              | .scalar ntraj, .scalar nclust =>
                if nclust = 0 then .error .zeroDivisionError
                else
                  let ntraj_pc := ntraj / nclust
                  let freq := get_freq_alias ntraj_pc
                  let nts := 88
                  match metadata.attribute_types with
                  | none => .error .keyError
                  | some (.scalar _) => .error .typeError
                  | some (.list codes) =>
                    match attrNames codes with
                    | .error e => .error e
                    | .ok names =>
                      let metadata2 := { metadata with attribute_names := some names }
                      let parsedRows :=
                        (lines.drop (endPos + 1)).filter (fun l => !(isBlankLine l))
                      match parsedRows with
                      | [] => .error .emptyDataError
                      | _ :: dataRows =>
                        let blocks := chunkLoop nts ntraj dataRows
                        let initDay := daysFromCivil y mo d
                        let cluster_index :=
                          clust.flatMap (fun c => List.replicate ntraj_pc c)
                        match npFull cluster_index.length
                            (pd_date_range initDay ntraj_pc freq) with
                        | .error e => .error e
                        | .ok date_index =>
                          let keys := cluster_index.zip date_index
                          if ntraj = 0 then .error .noObjectsError
                          else if blocks.length < ntraj then .error .concatNoneError
                          else .ok (keys.zip blocks, metadata2)
              | _, _ => .error .typeError

/-! ## Multi-file aggregation (read_data) -/

/-- Does `pat` occur at the end of `l`? -/
def endsWithList (pat l : List Char) : Bool :=
  startsWithList pat.reverse l.reverse

/-- Zero-padded decimal rendering of `n` to width `w`, as in `strftime`. -/
def padNum (w n : Nat) : String :=
  let s := toString n
  String.mk (List.replicate (w - s.length) '0') ++ s

/-- Models `date.strftime("%Y%m%d00")` on a serial day number. -/
def fmtDay00 (z : Nat) : String :=
  match civilFromDays z with
  | (y, m, d) => padNum 4 y ++ padNum 2 m ++ padNum 2 d ++ "00"

/-- A directory as `read_data` sees it: whether the path is a directory, and
the named files it holds (name and lines). -/
structure FS where
  isDir : Bool
  entries : List (String × List String)
  deriving Repr, DecidableEq

/-- Models `glob.glob(date.strftime("rtraj*%Y%m%d00"))` matching of one entry
name: the pattern has a single `*`, so a name matches exactly when it starts
with `rtraj`, ends with the ten-character day stamp, and is long enough for
the two literal pieces not to overlap. -/
def globMatchDay (z : Nat) (name : String) : Bool :=
  startsWithList "rtraj".toList name.toList
    && endsWithList (fmtDay00 z).toList name.toList
    && decide (15 ≤ name.toList.length)

/-- Models `daterange(start_date, end_date)` of read_traj.py over serial day
numbers: one day per `n` in `range((end_date - start_date).days + 1)`, so the
empty list when the end precedes the start. -/
def dayRange (sd ed : Nat) : List Nat :=
  (List.range (ed + 1 - sd)).map (fun k => sd + k)

/-- The flattened per-day glob results of `read_data`, in day order and, per
day, in directory-listing order. -/
def matchedEntries (fs : FS) (days : List Nat) : List (String × List String) :=
  days.flatMap (fun d => fs.entries.filter (fun en => globMatchDay d en.1))

/-- Specification-side tagging of `matchedEntries` with the day each file was
matched for, used to state the ordering of the aggregate. -/
def matchedTagged (fs : FS) (days : List Nat) :
    List (Nat × (String × List String)) :=
  days.flatMap (fun d =>
    (fs.entries.filter (fun en => globMatchDay d en.1)).map (fun en => (d, en)))

/-- Models the comprehension `[read_traj(file) for file in files]`,
propagating the first error. -/
def readAllFiles : List (String × List String) →
    Except Err (List (List ((Nat × Nat) × List String) × MetaState))
  | [] => .ok []
  | f :: fsr =>
    match read_traj f.2 with
    | .error e => .error e
    | .ok pr =>
      match readAllFiles fsr with
      | .error e => .error e
      | .ok rs => .ok (pr :: rs)

/-- Models `read_data` of read_traj.py: validate the directory, parse the
inclusive date range, glob one pattern per day, and read every matched file
in order. -/
def read_data (fs : FS) (start_date : String) (end_date : Option String) :
    Except Err (List (List ((Nat × Nat) × List String) × MetaState)) :=
  if fs.isDir = false then .error .notADirError
  else
    match parseIso start_date with
    | none => .error .isoFormatError
    | some (ys, ms, ds) =>
      let sd := daysFromCivil ys ms ds
      match end_date with
      | none => readAllFiles (matchedEntries fs (dayRange sd sd))
      | some e =>
        match parseIso e with
        | none => .error .isoFormatError
        | some (ye, me, de) =>
          readAllFiles (matchedEntries fs (dayRange sd (daysFromCivil ye me de)))

/-! ## Thermodynamic helper (thermo.py) -/

/-- The arithmetic of `equ_pot` after its domain checks, over the reals:
mass mixing ratio `z`, its clamping `a = np.where(z < 1.0e-10, 1.0e-10, z)`,
and the potential-temperature formula (with `**` as real exponentiation and
`np.log`, `np.exp` as the real logarithm and exponential). -/
noncomputable def equ_pot_value (t q p : ℝ) : ℝ :=
  let z := q / (1.0 - q)
  let a := if z < 1.0e-10 then 1.0e-10 else z
  t * (1000 / p) ^ (0.2854 * (1.0 - 0.28 * q)) *
    Real.exp ((3.376 / (2840.0 / (3.5 * Real.log t
          - Real.log (100 * p * a / (0.622 + 0.378 * q)) - 0.1998) + 55.0)
        - 0.00254) * 1.0e3 * a * (1.0 + 0.81 * q))

/-- Models `equ_pot` of thermo.py: the three `ValueError` domain checks in
source order (`none` models a raise), then the formula. -/
noncomputable def equ_pot (t q p : ℝ) : Option ℝ :=
  if t ≤ 0 then none
  else if q < 0 ∨ 1 ≤ q then none
  else if p ≤ 0 then none
  else some (equ_pot_value t q p)

/-! ## Concrete input files used by the theorems below -/

/-- A well-formed single-cluster trajectory file (one trajectory, two
attributes), in the layout of the format documentation in read_traj.py. -/
def exFileOk : List String :=
  [" TRAJECTORY BASE TIME IS 2021051700",
   " DATA BASE TIME IS 2021051700",
   " DATA INTERVAL IS    3 HOURS AND CONTAINS    6 TIMESTEPS",
   " TOTAL NUMBER OF TRAJECTORIES IS        1",
   " NUMBER OF ATTRIBUTES IS    2",
   " ATTRIBUTE TYPES = ",
   "   1   4",
   " NUMBER OF CLUSTERS IS    1",
   " CLUSTER POINTERS = ",
   "      1",
   " 3D TRAJECTORY ? (T OR F): T",
   " FORECAST DATA ? (T OR F): F",
   " FORWARD TRAJECTORY ? (T OR F): F",
   "",
   " TRAJECTORY NUMBER     1 COMPRISES    88 INTERVALS",
   " STEP    HOURS     LAT      LON      P (MB)   TEMPERATURE   HUMIDITY",
   "    0     0.0     75.00   120.00   1000.0    273.10    0.00100",
   "    1    -1.0     75.10   120.20    995.0    272.90    0.00110"]

/-- A trajectory file with two clusters (four trajectories, pointers 1 2),
otherwise identical in shape to `exFileOk`. -/
def exFileTwoClusters : List String :=
  [" TRAJECTORY BASE TIME IS 2019092200",
   " DATA BASE TIME IS 2021051700",
   " DATA INTERVAL IS    3 HOURS AND CONTAINS    6 TIMESTEPS",
   " TOTAL NUMBER OF TRAJECTORIES IS        4",
   " NUMBER OF ATTRIBUTES IS    2",
   " ATTRIBUTE TYPES = ",
   "   1   4",
   " NUMBER OF CLUSTERS IS    2",
   " CLUSTER POINTERS = ",
   "      1   2",
   " 3D TRAJECTORY ? (T OR F): T",
   " FORECAST DATA ? (T OR F): F",
   " FORWARD TRAJECTORY ? (T OR F): F",
   "",
   " TRAJECTORY NUMBER     1 COMPRISES    88 INTERVALS",
   " STEP    HOURS     LAT      LON      P (MB)   TEMPERATURE   HUMIDITY",
   "    0     0.0     75.00   120.00   1000.0    273.10    0.00100",
   "    1    -1.0     75.10   120.20    995.0    272.90    0.00110"]

/-- A trajectory file with three clusters (six trajectories, distinct
pointers 1 2 3), six evenly divisible trajectories per the C5 hypotheses. -/
def exFileThreeClusters : List String :=
  [" TRAJECTORY BASE TIME IS 2019092200",
   " DATA BASE TIME IS 2021051700",
   " DATA INTERVAL IS    3 HOURS AND CONTAINS    6 TIMESTEPS",
   " TOTAL NUMBER OF TRAJECTORIES IS        6",
   " NUMBER OF ATTRIBUTES IS    2",
   " ATTRIBUTE TYPES = ",
   "   1   4",
   " NUMBER OF CLUSTERS IS    3",
   " CLUSTER POINTERS = ",
   "      1   2   3",
   " 3D TRAJECTORY ? (T OR F): T",
   " FORECAST DATA ? (T OR F): F",
   " FORWARD TRAJECTORY ? (T OR F): F",
   "",
   " TRAJECTORY NUMBER     1 COMPRISES    88 INTERVALS",
   " STEP    HOURS     LAT      LON      P (MB)   TEMPERATURE   HUMIDITY",
   "    0     0.0     75.00   120.00   1000.0    273.10    0.00100",
   "    1    -1.0     75.10   120.20    995.0    272.90    0.00110"]

/-- A directory with one matching file on 2021-05-17 and one on 2021-05-19,
no file for 2021-05-18, and one non-matching name. -/
def exDir : FS :=
  { isDir := true,
    entries := [("rtraj_a2021051700", exFileOk),
                ("notes.txt", [""]),
                ("rtrajx2021051900", exFileOk)] }

/-! ## Claim C2: frequency inference -/

/-- C2: the claim states that `get_freq_alias` returns descriptors denoting
1-minute, 1-hour and 1-day spacing for n = 1440, 24 and 1.  The function has
no `return` statement, so it returns `None` on all three inputs (its own test
suite, test_get_freq_alias.py, expects "1min" for 1440 and "D" for 1 and
fails against this code). -/
theorem get_freq_alias_code_bug :
    get_freq_alias 1440 = none ∧ get_freq_alias 24 = none ∧
      get_freq_alias 1 = none :=
  ⟨rfl, rfl, rfl⟩

/-! ## Claims C1 and C5: release-timestamp and cluster assignment -/

/-- C1: the claim states that the table returned by `read_traj` assigns the
trajectory at position k the release timestamp seq[k mod m].  On a file with
two clusters (m = 2 timestamps for 4 trajectories) `np.full` cannot
broadcast the m-element timestamp sequence into the ntraj-element index, so
`read_traj` raises a broadcast `ValueError` and returns no table at all. -/
theorem read_traj_two_clusters_broadcast_error :
    read_traj exFileTwoClusters = .error .broadcastError := rfl

/-- C5: the claim states that each trajectory is assigned the cluster pointer
at index position div (total/clusters) and that each distinct cluster id
labels exactly total/clusters trajectories.  On a file with three distinct
clusters and six trajectories (evenly divisible, pairwise distinct pointers)
`read_traj` raises the `np.full` broadcast `ValueError` before any cluster id
is attached to the returned table, so no assignment is made. -/
theorem read_traj_three_clusters_broadcast_error :
    read_traj exFileThreeClusters = .error .broadcastError := rfl

/-! ## Claim C8: equ_pot domain validation -/

/-- C8: `equ_pot` raises a domain error if and only if t ≤ 0, q < 0, q ≥ 1 or
p ≤ 0, and returns a value on every input with t > 0, 0 ≤ q < 1, p > 0. -/
theorem equ_pot_domain_iff (t q p : ℝ) :
    equ_pot t q p = none ↔ (t ≤ 0 ∨ q < 0 ∨ 1 ≤ q ∨ p ≤ 0) := by
  unfold equ_pot
  split_ifs with h1 h2 h3
  · simp [h1]
  · simp
    tauto
  · simp
    tauto
  · simp
    push_neg at h2
    exact ⟨not_le.mp h1, h2.1, h2.2, not_le.mp h3⟩

/-! ## Claim C3: chunk-loop block count -/

/-- C3: the trajectory-decoding loop reads exactly
min(total_trajectories, blocks available before end of input) blocks; a short
final block is stored like a full one and ends the loop without an error. -/
theorem chunkLoop_count (nts : Nat) :
    ∀ (rem : Nat) (rows : List String),
      (chunkLoop nts rem rows).length = min rem (blocksAvailable nts rows) := by
  intro rem
  induction rem with
  | zero => intro rows; simp [chunkLoop]
  | succ rem ih =>
    intro rows
    cases rows with
    | nil => simp [chunkLoop, blocksAvailable]
    | cons r rest =>
      rw [blocksAvailable]
      by_cases hlen : rest.length ≤ nts
      · have hdrop : (r :: rest).drop (nts + 1) = [] :=
          List.drop_eq_nil_of_le (by simp; omega)
        have hdrop2 : rest.drop (nts + 2) = [] :=
          List.drop_eq_nil_of_le (by omega)
        simp [chunkLoop, hdrop, hdrop2, blocksAvailable]
      · have hne : ((r :: rest).drop (nts + 1)).isEmpty = false := by
          cases h : (r :: rest).drop (nts + 1) with
          | nil =>
            have hle := List.drop_eq_nil_iff.mp h
            simp at hle
            omega
          | cons a as => rfl
        have hdd : (((r :: rest).drop (nts + 1)).drop 2) = rest.drop (nts + 2) := by
          rw [List.drop_drop]
          have h23 : nts + 1 + 2 = nts + 2 + 1 := by omega
          rw [h23, List.drop_succ_cons]
        simp only [chunkLoop, List.isEmpty_cons, hne, hdd, Bool.false_eq_true,
          if_false, List.length_cons]
        rw [ih (rest.drop (nts + 2))]
        omega

/-! ## Claims C6 and C10: header parse failure modes -/

/-- One step of the metadata loop on a non-break line is the `elif` chain
followed by the loop continuation. -/
theorem pmLoop_cons_step (fuel : Nat) (s : MetaState) (extras i : Nat)
    (line : String) (rest : List String)
    (htn : containsB (pyLower line) "trajectory number" = false) :
    pmLoop (fuel + 1) s extras i (line :: rest) =
      match pmStepBody s (pyLower line) rest with
      | .error e => .error e
      | .ok (s2, consumed) =>
        pmLoop fuel s2 (extras + consumed) (i + 1) (rest.drop consumed) := by
  rw [pmLoop]
  simp [htn]

/-- C6: on a header line that reaches the "data interval" branch, the parse
raises a hard error whenever the line does not yield exactly two numeric
tokens (no recovery: the loop result is the error), and with exactly two
tokens it records the first as the data interval hours and the second as the
data interval timesteps and continues. -/
theorem process_metadata_data_interval (fuel : Nat) (s : MetaState)
    (extras i : Nat) (line : String) (rest : List String)
    (hdi : containsB (pyLower line) "data interval" = true)
    (htn : containsB (pyLower line) "trajectory number" = false)
    (htb : containsB (pyLower line) "trajectory base time" = false)
    (hdb : containsB (pyLower line) "data base time" = false) :
    ((digitNums (pyLower line)).length ≠ 2 →
      ∃ er, pmLoop (fuel + 1) s extras i (line :: rest) = .error er) ∧
    (∀ a b, digitNums (pyLower line) = [a, b] →
      pmLoop (fuel + 1) s extras i (line :: rest) =
        pmLoop fuel
          { s with data_interval_hours := some a,
                   data_interval_timesteps := some b }
          extras (i + 1) rest) := by
  rw [pmLoop_cons_step fuel s extras i line rest htn]
  constructor
  · intro hne
    match hm : digitNums (pyLower line) with
    | [] =>
      simp [pmStepBody, htb, hdb, hdi, get_numeric, hm]
    | [x] =>
      simp [pmStepBody, htb, hdb, hdi, get_numeric, hm]
    | [x, y] => exact absurd (by rw [hm]; rfl) hne
    | x :: y :: z :: zs =>
      simp [pmStepBody, htb, hdb, hdi, get_numeric, hm]
  · intro a b hm
    simp [pmStepBody, htb, hdb, hdi, get_numeric, hm]

/-- C6 witness: a data interval line with one numeric token is a hard parse
error, and the canonical two-token line records hours 3 and timesteps 6. -/
theorem process_metadata_data_interval_witness :
    (∃ er, pmLoop 1 initMeta 0 0 [" data interval is 3 hours"] = .error er) ∧
    pmLoop 1 initMeta 0 0
        [" DATA INTERVAL IS    3 HOURS AND CONTAINS    6 TIMESTEPS"] =
      pmLoop 0
        { initMeta with data_interval_hours := some 3,
                        data_interval_timesteps := some 6 } 0 1 [] := by
  constructor
  · exact (process_metadata_data_interval 0 initMeta 0 0
      " data interval is 3 hours" [] (by decide) (by decide) (by decide)
      (by decide)).1 (by decide)
  · exact (process_metadata_data_interval 0 initMeta 0 0
      " DATA INTERVAL IS    3 HOURS AND CONTAINS    6 TIMESTEPS" []
      (by decide) (by decide) (by decide) (by decide)).2 3 6 (by decide)

/-- C10: when a line reaching the "cluster pointers" branch is processed
while the "number of clusters" key has not yet been parsed, the metadata
loop raises a lookup error (`KeyError`) instead of returning a metadata
mapping. -/
theorem process_metadata_cluster_pointers_key_error (fuel : Nat)
    (s : MetaState) (extras i : Nat) (line : String) (rest : List String)
    (hcp : containsB (pyLower line) "cluster pointers" = true)
    (h1 : containsB (pyLower line) "trajectory number" = false)
    (h2 : containsB (pyLower line) "trajectory base time" = false)
    (h3 : containsB (pyLower line) "data base time" = false)
    (h4 : containsB (pyLower line) "data interval" = false)
    (h5 : containsB (pyLower line) "total number of trajectories" = false)
    (h6 : containsB (pyLower line) "number of attributes" = false)
    (h7 : containsB (pyLower line) "attribute types" = false)
    (h8 : containsB (pyLower line) "number of clusters" = false)
    (hnc : s.number_of_clusters = none) :
    pmLoop (fuel + 1) s extras i (line :: rest) = .error .keyError := by
  rw [pmLoop_cons_step fuel s extras i line rest h1]
  simp [pmStepBody, h2, h3, h4, h5, h6, h7, h8, hcp, hnc]

/-- C10 witness: a header that opens with its cluster pointers line fails
with the lookup error at that line. -/
theorem process_metadata_cluster_pointers_key_error_witness :
    pmLoop 2 initMeta 0 0 [" CLUSTER POINTERS = ", "      1"] =
      .error .keyError :=
  process_metadata_cluster_pointers_key_error 1 initMeta 0 0
    " CLUSTER POINTERS = " ["      1"] (by decide) (by decide) (by decide)
    (by decide) (by decide) (by decide) (by decide) (by decide) (by decide)
    rfl

/-! ## Claim C4: header offset is the physical index of the break line -/

/-- Indexing into a dropped list looks up the shifted physical position. -/
theorem get?_drop_eq {α : Type} (l : List α) :
    ∀ (n k : Nat), (l.drop n).get? k = l.get? (n + k) := by
  induction l with
  | nil => intro n k; simp
  | cons a l ih =>
    intro n k
    cases n with
    | zero => simp
    | succ n =>
      rw [List.drop_succ_cons]
      have hnk : n + 1 + k = (n + k) + 1 := by omega
      rw [hnk, List.get?_cons_succ, ih n k]

/-- When the traversal of `pmBreakPos` breaks at relative physical position
`j`, the loop `pmLoop` run from the same configuration returns, with the
source's `count = count + i` accounting, exactly `extras + i + j`. -/
theorem pmLoop_of_breakPos (fuel : Nat) :
    ∀ (s : MetaState) (extras i : Nat) (lines : List String) (j : Nat),
      pmBreakPos fuel s lines = some j →
      ∃ m, pmLoop fuel s extras i lines = .ok (m, extras + i + j) := by
  induction fuel with
  | zero =>
    intro s extras i lines j h
    cases lines <;> simp [pmBreakPos] at h
  | succ fuel ih =>
    intro s extras i lines j h
    cases lines with
    | nil => simp [pmBreakPos] at h
    | cons line rest =>
      rw [pmBreakPos] at h
      rw [pmLoop]
      by_cases hb : containsB (pyLower line) "trajectory number" = true
      · simp only [hb, if_true] at h ⊢
        simp at h
        exact ⟨s, by simp [h]⟩
      · rw [Bool.not_eq_true] at hb
        simp only [hb, Bool.false_eq_true, if_false] at h ⊢
        cases hstep : pmStepBody s (pyLower line) rest with
        | error e2 => rw [hstep] at h; simp at h
        | ok pr =>
          obtain ⟨s2, consumed⟩ := pr
          rw [hstep] at h
          simp only [Option.map_eq_some'] at h
          obtain ⟨j2, hj2, hj⟩ := h
          obtain ⟨m, hm⟩ := ih s2 (extras + consumed) (i + 1) (rest.drop consumed) j2 hj2
          refine ⟨m, ?_⟩
          dsimp only
          rw [hm]
          have harith : extras + consumed + (i + 1) + j2 = extras + i + j := by omega
          rw [harith]

/-- The line at the physical break position of `pmBreakPos` exists and
contains the phrase "trajectory number". -/
theorem breakPos_line (fuel : Nat) :
    ∀ (s : MetaState) (lines : List String) (j : Nat),
      pmBreakPos fuel s lines = some j →
      ∃ l, lines.get? j = some l ∧
        containsB (pyLower l) "trajectory number" = true := by
  induction fuel with
  | zero =>
    intro s lines j h
    cases lines <;> simp [pmBreakPos] at h
  | succ fuel ih =>
    intro s lines j h
    cases lines with
    | nil => simp [pmBreakPos] at h
    | cons line rest =>
      rw [pmBreakPos] at h
      by_cases hb : containsB (pyLower line) "trajectory number" = true
      · simp only [hb, if_true] at h
        simp at h
        exact ⟨line, by rw [← h]; simp, hb⟩
      · rw [Bool.not_eq_true] at hb
        simp only [hb, Bool.false_eq_true, if_false] at h
        cases hstep : pmStepBody s (pyLower line) rest with
        | error e2 => rw [hstep] at h; simp at h
        | ok pr =>
          obtain ⟨s2, consumed⟩ := pr
          rw [hstep] at h
          simp only [Option.map_eq_some'] at h
          obtain ⟨j2, hj2, hj⟩ := h
          obtain ⟨l, hl, hc⟩ := ih s2 (rest.drop consumed) j2 hj2
          refine ⟨l, ?_, hc⟩
          rw [get?_drop_eq] at hl
          have harith : j = (consumed + j2) + 1 := by omega
          rw [harith, List.get?_cons_succ]
          exact hl

/-- C4: when the first data-record line is the first line containing
"trajectory number" (no earlier line contains the phrase) and the traversal
breaks at physical position j, `process_metadata` succeeds and returns j as
its second component: the enumerate counter plus every extra line consumed
for attribute-types and cluster-pointer values adds up to the 0-based
physical index of the break line. -/
theorem process_metadata_offset (lines : List String) (j : Nat)
    (_hfirst : (lines.take j).all
      (fun l => !(containsB (pyLower l) "trajectory number")) = true)
    (hbreak : pmBreakPos lines.length initMeta lines = some j) :
    ∃ m, process_metadata lines = .ok (m, j) ∧
      ∃ l, lines.get? j = some l ∧
        containsB (pyLower l) "trajectory number" = true := by
  obtain ⟨m, hm⟩ :=
    pmLoop_of_breakPos lines.length initMeta 0 0 lines j hbreak
  refine ⟨m, ?_, breakPos_line lines.length initMeta lines j hbreak⟩
  simpa [process_metadata] using hm

/-- C4 witness: on the example file the loop consumes two extra value lines
(one for attribute types, one for cluster pointers) and returns offset 14,
the physical index of its "TRAJECTORY NUMBER" line. -/
theorem process_metadata_offset_witness :
    ∃ m, process_metadata exFileOk = .ok (m, 14) ∧
      ∃ l, exFileOk.get? 14 = some l ∧
        containsB (pyLower l) "trajectory number" = true :=
  process_metadata_offset exFileOk 14 (by decide) (by decide)

/-! ## Claim C7: sparse date-range aggregation -/

/-- Did the computation succeed?  (Bool form of `Except` success, so the
hypotheses below stay decidable on concrete directories.) -/
def exceptIsOk {α β : Type} : Except α β → Bool
  | .ok _ => true
  | .error _ => false

/-- When every listed file reads successfully, the read comprehension
succeeds, produces one result per file, and pairs them up in order. -/
theorem readAllFiles_ok (l : List (String × List String))
    (h : ∀ en ∈ l, exceptIsOk (read_traj en.2) = true) :
    ∃ res, readAllFiles l = .ok res ∧ res.length = l.length ∧
      ∀ (k : Nat) (en : String × List String), l.get? k = some en →
        ∃ v, read_traj en.2 = .ok v ∧ res.get? k = some v := by
  induction l with
  | nil =>
    refine ⟨[], rfl, rfl, ?_⟩
    intro k en hk
    simp at hk
  | cons f fsr ih =>
    have hf := h f (by simp)
    obtain ⟨v, hv⟩ : ∃ v, read_traj f.2 = .ok v := by
      cases hrt : read_traj f.2 with
      | error e => rw [hrt] at hf; simp [exceptIsOk] at hf
      | ok v => exact ⟨v, rfl⟩
    obtain ⟨res, hres, hlen, hcorr⟩ := ih (fun en hen => h en (by simp [hen]))
    refine ⟨v :: res, ?_, by simp [hlen], ?_⟩
    · simp only [readAllFiles, hv, hres]
    · intro k en hk
      cases k with
      | zero =>
        simp at hk
        subst hk
        exact ⟨v, hv, by simp⟩
      | succ k =>
        simp only [List.get?_cons_succ] at hk
        obtain ⟨v2, h1, h2⟩ := hcorr k en hk
        exact ⟨v2, h1, by simpa using h2⟩

/-- A constant-tagged replicate block is sorted. -/
theorem sorted_map_const {α : Type} (xs : List α) (d : Nat) :
    (xs.map (fun _ => d)).Sorted (· ≤ ·) := by
  induction xs with
  | nil => simp
  | cons x xs ih =>
    simp only [List.map_cons, List.sorted_cons]
    exact ⟨by intro b hb; simp at hb; omega, ih⟩

/-- Flattening day-tagged blocks over a sorted day list yields a sorted tag
sequence. -/
theorem sorted_flatMap_tags {α : Type} (g : Nat → List α) :
    ∀ (days : List Nat), days.Sorted (· ≤ ·) →
      (days.flatMap (fun d => (g d).map (fun _ => d))).Sorted (· ≤ ·) := by
  intro days
  induction days with
  | nil => intro h; simp
  | cons d ds ih =>
    intro h
    rw [List.flatMap_cons]
    refine List.pairwise_append.mpr ⟨sorted_map_const (g d) d, ih h.of_cons, ?_⟩
    intro x hx y hy
    simp only [List.mem_map] at hx
    obtain ⟨_, _, rfl⟩ := hx
    simp only [List.mem_flatMap, List.mem_map] at hy
    obtain ⟨d2, hd2, _, _, rfl⟩ := hy
    exact (List.sorted_cons.mp h).1 d2 hd2

/-- The day range of `read_data` is ascending. -/
theorem dayRange_sorted (sd ed : Nat) : (dayRange sd ed).Sorted (· ≤ ·) := by
  unfold dayRange List.Sorted
  rw [List.pairwise_map]
  exact (List.pairwise_lt_range _).imp (fun h => by omega)

/-- The day tags of the matched files, in output order, form the map of the
flatMap blocks. -/
theorem matchedTagged_map_fst (fs : FS) (days : List Nat) :
    (matchedTagged fs days).map Prod.fst =
      days.flatMap (fun d =>
        ((fs.entries.filter (fun en => globMatchDay d en.1)).map
          (fun _ => d))) := by
  unfold matchedTagged
  rw [List.map_flatMap]
  congr 1
  funext d
  rw [List.map_map]
  rfl

/-- C7: over an inclusive date range, `read_data` returns one (table,
metadata) pair per file matching the per-day naming pattern, paired in order
with the matched files, whose day tags are ascending; days with no matching
file contribute nothing and raise no error. -/
theorem read_data_range (fs : FS) (sarg earg : String)
    (ys ms ds ye me de : Nat)
    (hdir : fs.isDir = true)
    (hs : parseIso sarg = some (ys, ms, ds))
    (he : parseIso earg = some (ye, me, de))
    (hok : ∀ en ∈ matchedEntries fs
        (dayRange (daysFromCivil ys ms ds) (daysFromCivil ye me de)),
      exceptIsOk (read_traj en.2) = true) :
    ∃ res, read_data fs sarg (some earg) = .ok res ∧
      res.length = (matchedEntries fs
        (dayRange (daysFromCivil ys ms ds) (daysFromCivil ye me de))).length ∧
      ((matchedTagged fs
        (dayRange (daysFromCivil ys ms ds) (daysFromCivil ye me de))).map
          Prod.fst).Sorted (· ≤ ·) ∧
      ∀ (k : Nat) (en : String × List String),
        (matchedEntries fs
          (dayRange (daysFromCivil ys ms ds) (daysFromCivil ye me de))).get? k
            = some en →
          ∃ v, read_traj en.2 = .ok v ∧ res.get? k = some v := by
  obtain ⟨res, hres, hlen, hcorr⟩ := readAllFiles_ok _ hok
  refine ⟨res, ?_, hlen, ?_, hcorr⟩
  · unfold read_data
    rw [hdir]
    simp [hs, he, hres]
  · rw [matchedTagged_map_fst]
    exact sorted_flatMap_tags _ _ (dayRange_sorted _ _)

/-- C7 witness: the example directory has matching files for 2021-05-17 and
2021-05-19 and none for 2021-05-18; the aggregate reads both in ascending
day order with no error. -/
theorem read_data_range_witness :
    ∃ res, read_data exDir "2021-05-17" (some "2021-05-19") = .ok res ∧
      res.length = (matchedEntries exDir
        (dayRange (daysFromCivil 2021 5 17) (daysFromCivil 2021 5 19))).length ∧
      ((matchedTagged exDir
        (dayRange (daysFromCivil 2021 5 17) (daysFromCivil 2021 5 19))).map
          Prod.fst).Sorted (· ≤ ·) ∧
      ∀ (k : Nat) (en : String × List String),
        (matchedEntries exDir
          (dayRange (daysFromCivil 2021 5 17) (daysFromCivil 2021 5 19))).get? k
            = some en →
          ∃ v, read_traj en.2 = .ok v ∧ res.get? k = some v :=
  read_data_range exDir "2021-05-17" "2021-05-19" 2021 5 17 2021 5 19
    rfl (by decide) (by decide) (by decide)

/-! ## Claim C9: dry-air value of equ_pot -/

/-- The exponent factor of the dry-air case is positive. -/
theorem c_pos_of_E (E : ℝ) (h : (0.001:ℝ) < E) : 0 < E * 1.0e3 * 1.0e-10 := by
  nlinarith

/-- The exponent factor of the dry-air case is below 1e-8. -/
theorem c_ub_of_E (E : ℝ) (h : E < 0.0614) : E * 1.0e3 * 1.0e-10 < 1e-8 := by
  nlinarith

/-- A tiny positive exponent moves the factor 273 strictly up, but by less
than 0.001. -/
theorem exp_factor_bounds (c : ℝ) (hc_lb : 0 < c) (hc_ub : c < 1e-8) :
    273 < 273 * Real.exp c ∧ 273 * Real.exp c < 273.001 := by
  have hexp_lb : 1 + c < Real.exp c := by
    have := Real.add_one_lt_exp (ne_of_gt hc_lb)
    linarith
  have hexp_ub : Real.exp c < 1 + 2 * c := by
    have hneg := Real.add_one_lt_exp (x := -c)
      (by intro h0; rw [neg_eq_zero] at h0; exact absurd h0 (ne_of_gt hc_lb))
    rw [Real.exp_neg] at hneg
    have hepos : 0 < Real.exp c := Real.exp_pos c
    have hinv : (Real.exp c)⁻¹ * Real.exp c = 1 :=
      inv_mul_cancel₀ (ne_of_gt hepos)
    have hmul : (1 - c) * Real.exp c < 1 := by nlinarith
    have h1c : (0:ℝ) < 1 - c := by linarith
    nlinarith [mul_pos hc_lb (show (0:ℝ) < 1 - 2 * c by linarith)]
  constructor
  · nlinarith
  · nlinarith

/-- Bounds on the dry-air formula value, for any logarithm values L of the
temperature and M of the clamped mixing-ratio argument with 1 < L and
M < 0. -/
theorem dry_exp_bounds (L M : ℝ) (hL : 1 < L) (hM : M < 0) :
    273 < 273 * Real.exp ((3.376 / (2840.0 / (3.5 * L - M - 0.1998) + 55.0)
        - 0.00254) * 1.0e3 * 1.0e-10) ∧
    273 * Real.exp ((3.376 / (2840.0 / (3.5 * L - M - 0.1998) + 55.0)
        - 0.00254) * 1.0e3 * 1.0e-10) < 273.001 := by
  have hD_lb : (3.3:ℝ) < 3.5 * L - M - 0.1998 := by linarith
  have hD_pos : (0:ℝ) < 3.5 * L - M - 0.1998 := by linarith
  have h2840 : (2840.0:ℝ) / (3.5 * L - M - 0.1998) < 2840.0 / 3.3 :=
    div_lt_div_of_pos_left (by norm_num) (by norm_num) hD_lb
  have h2840pos : (0:ℝ) < 2840.0 / (3.5 * L - M - 0.1998) :=
    div_pos (by norm_num) hD_pos
  have hB_lb : (55:ℝ) < 2840.0 / (3.5 * L - M - 0.1998) + 55.0 := by linarith
  have hB_ub : 2840.0 / (3.5 * L - M - 0.1998) + 55.0 < 916 := by
    have h33 : (2840.0:ℝ) / 3.3 < 861 := by norm_num
    linarith
  have hB_pos : (0:ℝ) < 2840.0 / (3.5 * L - M - 0.1998) + 55.0 := by linarith
  have hE_lb : (0.001:ℝ) <
      3.376 / (2840.0 / (3.5 * L - M - 0.1998) + 55.0) - 0.00254 := by
    have h1 : (3.376:ℝ) / 916
        < 3.376 / (2840.0 / (3.5 * L - M - 0.1998) + 55.0) :=
      div_lt_div_of_pos_left (by norm_num) hB_pos hB_ub
    have h2 : (0.00354:ℝ) < 3.376 / 916 := by norm_num
    linarith
  have hE_ub : 3.376 / (2840.0 / (3.5 * L - M - 0.1998) + 55.0) - 0.00254
      < 0.0614 := by
    have h1 : 3.376 / (2840.0 / (3.5 * L - M - 0.1998) + 55.0) < 3.376 / 55 :=
      div_lt_div_of_pos_left (by norm_num) (by norm_num) hB_lb
    have h2 : (3.376:ℝ) / 55 < 0.0614 := by norm_num
    linarith
  exact exp_factor_bounds _ (c_pos_of_E _ hE_lb) (c_ub_of_E _ hE_ub)

/-- On the dry-air test input the formula value reduces to 273 times the
exponential of a small positive constant, and lies strictly between 273 and
273.001. -/
theorem equ_pot_value_dry_bounds :
    273 < equ_pot_value 273 0 1000 ∧ equ_pot_value 273 0 1000 < 273.001 := by
  have hval : equ_pot_value 273 0 1000 =
      273 * Real.exp ((3.376 / (2840.0 /
          (3.5 * Real.log 273 - Real.log (1e-5 / 0.622) - 0.1998) + 55.0)
        - 0.00254) * 1.0e3 * 1.0e-10) := by
    unfold equ_pot_value
    dsimp only
    rw [if_pos (by norm_num : (0:ℝ)/(1.0-0) < 1.0e-10)]
    rw [show (1000:ℝ)/1000 = 1 by norm_num, Real.one_rpow, mul_one]
    rw [show 100 * 1000 * (1.0e-10:ℝ) / (0.622 + 0.378 * 0) = 1e-5/0.622 by
      norm_num]
    rw [show (1.0:ℝ) + 0.81 * 0 = 1 by norm_num, mul_one]
  have hL : 1 < Real.log 273 := by
    rw [Real.lt_log_iff_exp_lt (by norm_num : (0:ℝ) < 273)]
    calc Real.exp 1 < 2.7182818286 := Real.exp_one_lt_d9
    _ < 273 := by norm_num
  have hM : Real.log (1e-5 / 0.622) < 0 :=
    Real.log_neg (by norm_num) (by norm_num)
  rw [hval]
  exact dry_exp_bounds (Real.log 273) (Real.log (1e-5 / 0.622)) hL hM

/-- On the dry-air test input the domain checks pass and `equ_pot` returns
the formula value. -/
theorem equ_pot_dry_some :
    equ_pot 273 0 1000 = some (equ_pot_value 273 0 1000) := by
  unfold equ_pot
  rw [if_neg (by norm_num : ¬(273:ℝ) ≤ 0)]
  rw [if_neg (show ¬((0:ℝ) < 0 ∨ 1 ≤ (0:ℝ)) by push_neg; norm_num)]
  rw [if_neg (by norm_num : ¬(1000:ℝ) ≤ 0)]

/-- C9 counterexample: the claim states `equ_pot(273, 0, 1000)` equals the
input temperature exactly; in fact the mixing ratio is clamped below by
1e-10, so the returned value is strictly greater than 273 and the claimed
exact equality fails. -/
theorem equ_pot_dry_not_exact : equ_pot 273 0 1000 ≠ some 273 := by
  rw [equ_pot_dry_some]
  intro hcontra
  have heq : equ_pot_value 273 0 1000 = 273 := Option.some.inj hcontra
  have := equ_pot_value_dry_bounds.1
  linarith

/-- C9 (amended): at specific humidity 0 and pressure 1000, `equ_pot` returns
a value approximately equal to the input temperature - strictly greater than
273 because the mixing ratio is clamped below by 1e-10, but within 0.001 of
it, which is what the repository test asserts via `pytest.approx` - rather
than exactly equal to it. -/
theorem equ_pot_dry_approx :
    equ_pot 273 0 1000 = some (equ_pot_value 273 0 1000) ∧
    273 < equ_pot_value 273 0 1000 ∧ equ_pot_value 273 0 1000 < 273.001 :=
  ⟨equ_pot_dry_some, equ_pot_value_dry_bounds.1, equ_pot_value_dry_bounds.2⟩
